import Mathlib

/-!
Verification of the HC-SR04 ultrasonic distance sensor driver
(`src/lib.rs`): a shallow embedding of the driver's state machine and
distance computation, followed by theorems settling the specification's
claims about it.

Machine integers: the Rust code works on `u32`.  We embed `u32` values as
`Nat` and apply `% 2 ^ 32` exactly where the Rust semantics demands it
(`wrapping_sub`, and the release-mode wrapping multiplication in
`distance`).  Division by zero panics in Rust, so the embedded `distance`
returns `Option`, with `none` standing for the panic.

Hardware: the trigger pin and the microsecond delay provider are external
capabilities touched only by `trigger`; they are modelled as a trace of
emitted `Effect`s rather than as state, so that absence of side effects is
a provable statement.
-/

namespace HcSr04Spec

/-- The `u32` modulus. -/
def U32 : Nat := 2 ^ 32

/-- Rust `u32::wrapping_sub` on values embedded as `Nat`. -/
def wrapping_sub (a b : Nat) : Nat := (a % U32 + (U32 - b % U32)) % U32

/-- Rust `u32` multiplication with release-mode wraparound semantics. -/
def wrapping_mul (a b : Nat) : Nat := a * b % U32

/-- `Distance` from `src/lib.rs`: wrapper for the sensor's return value,
holding a millimeter magnitude (the Rust tuple field `.0`). -/
structure Distance where
  val : Nat
deriving DecidableEq, Repr

/-- `Distance::mm`: get distance as millimeters. -/
def Distance.mm (d : Distance) : Nat := d.val

/-- `Distance::cm`: get distance as centimeters. -/
def Distance.cm (d : Distance) : Nat := d.val / 10

/-- `SensorError` from `src/lib.rs`. -/
inductive SensorError where
  | WrongMode
deriving DecidableEq, Repr

/-- `Mode` from `src/lib.rs`: the sensor's internal state tag. -/
inductive Mode where
  | Idle
  | Triggered
  | Measurement
  | Completed
  | Timedout
deriving DecidableEq, Repr

/-- The `HcSr04` device state.  The Rust struct also owns the trigger pin
and the delay provider; those are external handles whose use is modelled
by the `Effect` trace each operation returns. -/
structure HcSr04 where
  mode : Mode
  hz : Nat
  t1 : Nat
  t2 : Nat
deriving DecidableEq, Repr

/-- An observable action on the external pin or delay capability. -/
inductive Effect where
  | setHigh
  | setLow
  | delayUs (us : Nat)
deriving DecidableEq, Repr

/-- Result of the non-blocking `distance` poll:
`nb::Result<Option<Distance>, Void>`.  `Void` is uninhabited, so the only
error is `WouldBlock`. -/
inductive PollResult where
  | wouldBlock
  | ready (d : Option Distance)
deriving DecidableEq, Repr

/-- `HcSr04::new`: construct the driver; defensively drives the pin low
and starts in `Idle` with both edge ticks zero. -/
def new (hz : Nat) : HcSr04 × List Effect :=
  ({ mode := Mode.Idle, hz := hz, t1 := 0, t2 := 0 }, [Effect.setLow])

/-- `HcSr04::trigger`: emit the 10 microsecond trigger pulse and move to
`Triggered`. -/
def trigger (s : HcSr04) : HcSr04 × List Effect :=
  ({ s with mode := Mode.Triggered },
   [Effect.setHigh, Effect.delayUs 10, Effect.setLow])

/-- `HcSr04::reset`: clear the edge ticks and return to `Idle`. -/
def reset (s : HcSr04) : HcSr04 :=
  { s with t1 := 0, t2 := 0, mode := Mode.Idle }

/-- `HcSr04::distance`: the non-blocking poll.  In `Completed` the code
computes `self.t2.wrapping_sub(self.t1) * (171_605 / 1000) / (self.hz / 1000)`;
when `self.hz / 1000 = 0` the division panics, embedded as `none`. -/
def distance (s : HcSr04) : Option (PollResult × HcSr04 × List Effect) :=
  match s.mode with
  | Mode.Idle =>
      let t := trigger s
      some (PollResult.wouldBlock, t.1, t.2)
  | Mode.Triggered => some (PollResult.wouldBlock, s, [])
  | Mode.Measurement => some (PollResult.wouldBlock, s, [])
  | Mode.Timedout => some (PollResult.ready none, reset s, [])
  | Mode.Completed =>
      if s.hz / 1000 = 0 then none
      else
        let d := wrapping_mul (wrapping_sub s.t2 s.t1) (171605 / 1000) / (s.hz / 1000)
        some (PollResult.ready (some ⟨d⟩), reset s, [])

/-- `HcSr04::capture`: edge-interrupt notification carrying a timestamp. -/
def capture (s : HcSr04) (ts : Nat) : Except SensorError Unit × HcSr04 :=
  match s.mode with
  | Mode.Triggered => (Except.ok (), { s with t1 := ts, mode := Mode.Measurement })
  | Mode.Measurement => (Except.ok (), { s with t2 := ts, mode := Mode.Completed })
  | _ => (Except.error SensorError.WrongMode, s)

/-- `HcSr04::timedout`: guard-timer notification. -/
def timedout (s : HcSr04) : Except SensorError Unit × HcSr04 :=
  match s.mode with
  | Mode.Triggered => (Except.ok (), { s with mode := Mode.Timedout })
  | Mode.Measurement => (Except.ok (), { s with mode := Mode.Timedout })
  | Mode.Completed => (Except.ok (), s)
  | _ => (Except.error SensorError.WrongMode, s)

/-- Modelled from the spec: the reference distance formula
`distance_mm = elapsed_ticks * 171605 / tick_frequency_hz`, stated by the
spec as the value the pre-divided integer computation is meant to match. -/
def ref_distance (elapsed hz : Nat) : Nat := elapsed * 171605 / hz

/-- Iterate the `distance` poll, collecting results and effects;
propagates a panic (`none`) of any single poll. -/
def pollRepeat (s : HcSr04) : Nat → Option (List PollResult × HcSr04 × List Effect)
  | 0 => some ([], s, [])
  | n + 1 =>
      match distance s with
      | none => none
      | some (r, s1, eff) =>
          match pollRepeat s1 n with
          | none => none
          | some (rs, s2, effs) => some (r :: rs, s2, eff ++ effs)

/-! ## Helper lemmas -/

/-- In `Completed` mode with `1000 ≤ hz`, the `distance` poll succeeds and
returns exactly the pre-divided integer computation, resetting the state. -/
theorem distance_completed_eq (s : HcSr04) (hm : s.mode = Mode.Completed)
    (hhz : 1000 ≤ s.hz) :
    distance s = some (PollResult.ready (some
      ⟨wrapping_mul (wrapping_sub s.t2 s.t1) (171605 / 1000) / (s.hz / 1000)⟩),
      reset s, []) := by
  obtain ⟨mo, hz, t1, t2⟩ := s
  have h2 : mo = Mode.Completed := hm
  subst h2
  have hne : hz / 1000 ≠ 0 := by
    intro h
    have := (Nat.div_eq_zero_iff (by norm_num)).mp h
    simp only at hhz
    omega
  simp only [distance, if_neg hne]

/-! ## Claim theorems -/

/-- Claim C1, counterexample: with `hz = 1000000`, `t1 = 0`, `t2 = 10000`
(so `elapsed = 10000` ticks), the pre-divided computation performed by
`distance` yields `1710` mm while the reference value
`elapsed * 171605 / hz` is `1716` mm — the two do not agree to the nearest
millimeter, refuting the claimed equality. -/
theorem claim1_counterexample :
    distance { mode := Mode.Completed, hz := 1000000, t1 := 0, t2 := 10000 } =
      some (PollResult.ready (some ⟨1710⟩),
        { mode := Mode.Idle, hz := 1000000, t1 := 0, t2 := 0 }, []) ∧
    ref_distance (wrapping_sub 10000 0) 1000000 = 1716 ∧
    (1710 : Nat) ≠ 1716 := by
  refine ⟨by decide, by decide, by decide⟩

/-- Claim C1, amended: in the `Completed` state with `1000 ≤ hz` and `hz`
a multiple of 1000, `distance` returns exactly the pre-divided integer
computation `elapsed * (171605/1000) / (hz/1000)` (with `u32` wrapping on
the product), and that value is a lower bound on — but need not equal to
the nearest millimeter — the reference value `elapsed * 171605 / hz`,
where `elapsed = wrapping_sub t2 t1`. -/
theorem claim1_predivided_lower_bound (s : HcSr04) (hm : s.mode = Mode.Completed)
    (hmod : s.hz % 1000 = 0) (hge : 1000 ≤ s.hz) :
    ∃ d : Distance,
      distance s = some (PollResult.ready (some d), reset s, []) ∧
      Distance.mm d ≤ ref_distance (wrapping_sub s.t2 s.t1) s.hz := by
  refine ⟨_, distance_completed_eq s hm hge, ?_⟩
  set e := wrapping_sub s.t2 s.t1 with he
  have hdvd : 1000 ∣ s.hz := Nat.dvd_of_mod_eq_zero hmod
  have hzm : s.hz / 1000 * 1000 = s.hz := Nat.div_mul_cancel hdvd
  show wrapping_mul e (171605 / 1000) / (s.hz / 1000) ≤ ref_distance e s.hz
  have h171 : (171605 : Nat) / 1000 = 171 := by norm_num
  rw [h171]
  have step1 : wrapping_mul e 171 / (s.hz / 1000) ≤ e * 171 / (s.hz / 1000) :=
    Nat.div_le_div_right (Nat.mod_le _ _)
  refine le_trans step1 ?_
  show e * 171 / (s.hz / 1000) ≤ e * 171605 / s.hz
  rw [Nat.le_div_iff_mul_le (by omega : 0 < s.hz)]
  calc e * 171 / (s.hz / 1000) * s.hz
      = e * 171 / (s.hz / 1000) * (s.hz / 1000) * 1000 := by
        rw [mul_assoc, hzm]
    _ ≤ e * 171 * 1000 := Nat.mul_le_mul_right 1000 (Nat.div_mul_le_self _ _)
    _ ≤ e * 171605 := by omega

/-- Witness for the amended claim C1 at `hz = 1000000`, `t1 = 1000`,
`t2 = 1060`. -/
theorem claim1_predivided_lower_bound_witness :
    ∃ d : Distance,
      distance { mode := Mode.Completed, hz := 1000000, t1 := 1000, t2 := 1060 } =
        some (PollResult.ready (some d),
          reset { mode := Mode.Completed, hz := 1000000, t1 := 1000, t2 := 1060 }, []) ∧
      Distance.mm d ≤ ref_distance (wrapping_sub 1060 1000) 1000000 :=
  claim1_predivided_lower_bound
    { mode := Mode.Completed, hz := 1000000, t1 := 1000, t2 := 1060 }
    rfl (by norm_num) (by norm_num)

/-- Claim C2: with tick frequency 1000000 Hz, in the `Completed` state with
rising edge tick 1000 and falling edge tick 1060, the `distance` poll
returns `Ready(Some(d))` with `d.mm = 10` and `d.cm = 1`, resetting the
sensor to `Idle`. -/
theorem claim2_scenario_a :
    distance { mode := Mode.Completed, hz := 1000000, t1 := 1000, t2 := 1060 } =
      some (PollResult.ready (some ⟨10⟩),
        { mode := Mode.Idle, hz := 1000000, t1 := 0, t2 := 0 }, []) ∧
    Distance.mm ⟨10⟩ = 10 ∧ Distance.cm ⟨10⟩ = 1 :=
  ⟨by decide, rfl, rfl⟩

/-- Claim C3: in the `Completed` state the `distance` poll panics (divides
by `hz / 1000 = 0`, embedded as `none`) exactly when the constructor
argument `hz` is below 1000; the computation is total precisely under the
precondition `1000 ≤ hz`. -/
theorem claim3_division_by_zero (s : HcSr04) (hm : s.mode = Mode.Completed) :
    distance s = none ↔ s.hz < 1000 := by
  obtain ⟨mo, hz, t1, t2⟩ := s
  have h2 : mo = Mode.Completed := hm
  subst h2
  have hiff : hz / 1000 = 0 ↔ hz < 1000 := Nat.div_eq_zero_iff (by norm_num)
  by_cases h : hz / 1000 = 0
  · simp only [distance, if_pos h]
    simpa using hiff.mp h
  · simp only [distance, if_neg h]
    constructor
    · intro hcontra
      exact absurd hcontra (by simp)
    · intro hlt
      exact absurd (hiff.mpr hlt) h

/-- Witness for claim C3: at `hz = 500` the poll in `Completed` panics. -/
theorem claim3_division_by_zero_witness :
    distance { mode := Mode.Completed, hz := 500, t1 := 0, t2 := 100 } = none :=
  (claim3_division_by_zero { mode := Mode.Completed, hz := 500, t1 := 0, t2 := 100 }
    rfl).mpr (by norm_num)

/-- Claim C4, counterexample: from `Idle` with tick frequency `hz = 500`,
the sequence `distance(); capture(100); capture(500)` advances exactly as
claimed, but the final `distance()` poll panics (divides by
`hz / 1000 = 0`, embedded as `none`) instead of returning
`Ready(Some(distance))`, so the unconditional claim fails. -/
theorem claim4_counterexample :
    distance { mode := Mode.Idle, hz := 500, t1 := 0, t2 := 0 } =
      some (PollResult.wouldBlock,
        { mode := Mode.Triggered, hz := 500, t1 := 0, t2 := 0 },
        [Effect.setHigh, Effect.delayUs 10, Effect.setLow]) ∧
    capture { mode := Mode.Triggered, hz := 500, t1 := 0, t2 := 0 } 100 =
      (Except.ok (), { mode := Mode.Measurement, hz := 500, t1 := 100, t2 := 0 }) ∧
    capture { mode := Mode.Measurement, hz := 500, t1 := 100, t2 := 0 } 500 =
      (Except.ok (), { mode := Mode.Completed, hz := 500, t1 := 100, t2 := 500 }) ∧
    distance { mode := Mode.Completed, hz := 500, t1 := 100, t2 := 500 } = none ∧
    ¬ ∃ d : Distance,
      distance { mode := Mode.Completed, hz := 500, t1 := 100, t2 := 500 } =
        some (PollResult.ready (some d),
          { mode := Mode.Idle, hz := 500, t1 := 0, t2 := 0 }, []) := by
  refine ⟨by decide, rfl, rfl, by decide, ?_⟩
  rintro ⟨d, hd⟩
  rw [show distance { mode := Mode.Completed, hz := 500, t1 := 100, t2 := 500 } = none
    from by decide] at hd
  exact Option.noConfusion hd

/-- Claim C4, amended: from `Idle` with a tick frequency `1000 ≤ hz` (below
1000 the final poll panics, see the counterexample), the sequence
`distance(); capture(100); capture(500); distance()` produces exactly:
not-ready with the trigger pulse emitted and state `Triggered`; `Ok` with
state `Measurement` and `t1 = 100`; `Ok` with state `Completed` and
`t2 = 500`; then `Ready(Some(distance))` with the state reset to `Idle`. -/
theorem claim4_scenario_b (s : HcSr04) (hm : s.mode = Mode.Idle)
    (hhz : 1000 ≤ s.hz) :
    distance s = some (PollResult.wouldBlock, { s with mode := Mode.Triggered },
      [Effect.setHigh, Effect.delayUs 10, Effect.setLow]) ∧
    capture { s with mode := Mode.Triggered } 100 =
      (Except.ok (), { s with mode := Mode.Measurement, t1 := 100 }) ∧
    capture { s with mode := Mode.Measurement, t1 := 100 } 500 =
      (Except.ok (), { s with mode := Mode.Completed, t1 := 100, t2 := 500 }) ∧
    ∃ d : Distance,
      distance { s with mode := Mode.Completed, t1 := 100, t2 := 500 } =
        some (PollResult.ready (some d),
          { s with mode := Mode.Idle, t1 := 0, t2 := 0 }, []) := by
  obtain ⟨mo, hz, t1, t2⟩ := s
  have h2 : mo = Mode.Idle := hm
  subst h2
  refine ⟨rfl, rfl, rfl, ?_⟩
  exact ⟨_, distance_completed_eq
    { mode := Mode.Completed, hz := hz, t1 := 100, t2 := 500 } rfl hhz⟩

/-- Witness for claim C4: the first poll from a freshly constructed sensor
at 1000000 Hz goes not-ready, emits the trigger pulse and arms the state
machine. -/
theorem claim4_scenario_b_witness :
    distance { mode := Mode.Idle, hz := 1000000, t1 := 0, t2 := 0 } =
      some (PollResult.wouldBlock,
        { mode := Mode.Triggered, hz := 1000000, t1 := 0, t2 := 0 },
        [Effect.setHigh, Effect.delayUs 10, Effect.setLow]) :=
  (claim4_scenario_b { mode := Mode.Idle, hz := 1000000, t1 := 0, t2 := 0 }
    rfl (by norm_num)).1

/-- Claim C5: `capture ts` in any state other than `Triggered` or
`Measurement` (that is `Idle`, `Completed` or `Timedout`) returns the
`WrongMode` error and leaves the whole sensor state unchanged; likewise
`timedout` in `Idle` or `Timedout` returns `WrongMode` without mutating
anything. -/
theorem claim5_wrong_mode (s : HcSr04) (ts : Nat)
    (hm : s.mode = Mode.Idle ∨ s.mode = Mode.Completed ∨ s.mode = Mode.Timedout) :
    capture s ts = (Except.error SensorError.WrongMode, s) ∧
    (s.mode = Mode.Idle ∨ s.mode = Mode.Timedout →
      timedout s = (Except.error SensorError.WrongMode, s)) := by
  obtain ⟨mo, hz, t1, t2⟩ := s
  rcases hm with h | h | h <;> (have h2 : mo = _ := h; subst h2)
  · exact ⟨rfl, fun _ => rfl⟩
  · refine ⟨rfl, ?_⟩
    rintro (h3 | h3) <;> simp at h3
  · exact ⟨rfl, fun _ => rfl⟩

/-- Witness for claim C5 at the `Idle` state with `ts = 42`. -/
theorem claim5_wrong_mode_witness :
    capture { mode := Mode.Idle, hz := 1000, t1 := 5, t2 := 7 } 42 =
      (Except.error SensorError.WrongMode,
        { mode := Mode.Idle, hz := 1000, t1 := 5, t2 := 7 }) :=
  (claim5_wrong_mode { mode := Mode.Idle, hz := 1000, t1 := 5, t2 := 7 } 42
    (Or.inl rfl)).1

/-- Claim C6, counterexample: in the `Completed` state with tick frequency
`hz = 700`, `timedout` is indeed an `Ok` no-op, but the eventual
`distance` poll panics (divides by `hz / 1000 = 0`, embedded as `none`)
instead of returning `Ready(Some ...)`, so the unconditional claim
fails. -/
theorem claim6_counterexample :
    timedout { mode := Mode.Completed, hz := 700, t1 := 100, t2 := 600 } =
      (Except.ok (), { mode := Mode.Completed, hz := 700, t1 := 100, t2 := 600 }) ∧
    distance { mode := Mode.Completed, hz := 700, t1 := 100, t2 := 600 } = none ∧
    ¬ ∃ d : Distance, ∃ s1 : HcSr04, ∃ effs : List Effect,
      distance { mode := Mode.Completed, hz := 700, t1 := 100, t2 := 600 } =
        some (PollResult.ready (some d), s1, effs) := by
  refine ⟨rfl, by decide, ?_⟩
  rintro ⟨d, s1, effs, hd⟩
  rw [show distance { mode := Mode.Completed, hz := 700, t1 := 100, t2 := 600 } = none
    from by decide] at hd
  exact Option.noConfusion hd

/-- Claim C6, amended: with a tick frequency `1000 ≤ hz` (below 1000 the
eventual poll panics, see the counterexample), a late `timedout` in the
`Completed` state returns `Ok` and leaves the state (mode and both edge
ticks) unchanged, and the eventual `distance` poll still returns
`Ready(Some ...)`, not `Ready(None)`. -/
theorem claim6_late_timeout (s : HcSr04) (hm : s.mode = Mode.Completed)
    (hhz : 1000 ≤ s.hz) :
    timedout s = (Except.ok (), s) ∧
    ∃ d : Distance,
      distance s = some (PollResult.ready (some d), reset s, []) := by
  obtain ⟨mo, hz, t1, t2⟩ := s
  have h2 : mo = Mode.Completed := hm
  subst h2
  exact ⟨rfl, _, distance_completed_eq _ rfl hhz⟩

/-- Witness for claim C6 in the `Completed` state at 1000000 Hz. -/
theorem claim6_late_timeout_witness :
    timedout { mode := Mode.Completed, hz := 1000000, t1 := 1000, t2 := 1060 } =
      (Except.ok (), { mode := Mode.Completed, hz := 1000000, t1 := 1000, t2 := 1060 }) :=
  (claim6_late_timeout { mode := Mode.Completed, hz := 1000000, t1 := 1000, t2 := 1060 }
    rfl (by norm_num)).1

/-- Claim C7: whenever the `distance` poll returns at all from `Completed`
or `Timedout`, the result is `Ready` (`Some` from `Completed`, `None` from
`Timedout`), the sensor is back in `Idle` with both edge ticks cleared to
zero, every `capture` issued before the next poll is rejected with
`WrongMode` without mutation, and the next poll is not-ready (it starts a
fresh measurement): no result is ever delivered twice. -/
theorem claim7_drain_once (s s1 : HcSr04) (r : PollResult) (effs : List Effect)
    (hm : s.mode = Mode.Completed ∨ s.mode = Mode.Timedout)
    (hd : distance s = some (r, s1, effs)) :
    (∃ o, r = PollResult.ready o) ∧
    (s.mode = Mode.Completed → ∃ d, r = PollResult.ready (some d)) ∧
    (s.mode = Mode.Timedout → r = PollResult.ready none) ∧
    s1.mode = Mode.Idle ∧ s1.t1 = 0 ∧ s1.t2 = 0 ∧
    (∀ ts, capture s1 ts = (Except.error SensorError.WrongMode, s1)) ∧
    (∃ s2 effs2, distance s1 = some (PollResult.wouldBlock, s2, effs2)) := by
  obtain ⟨mo, hz, t1, t2⟩ := s
  rcases hm with h | h <;> (have h2 : mo = _ := h; subst h2)
  · by_cases hz0 : hz / 1000 = 0
    · rw [show distance { mode := Mode.Completed, hz := hz, t1 := t1, t2 := t2 } = none
        from if_pos hz0] at hd
      exact absurd hd (by simp)
    · rw [show distance { mode := Mode.Completed, hz := hz, t1 := t1, t2 := t2 } =
          some (PollResult.ready (some
            ⟨wrapping_mul (wrapping_sub t2 t1) (171605 / 1000) / (hz / 1000)⟩),
            { mode := Mode.Idle, hz := hz, t1 := 0, t2 := 0 }, [])
        from if_neg hz0] at hd
      obtain ⟨rfl, rfl, rfl⟩ := by simpa using hd
      refine ⟨⟨_, rfl⟩, fun _ => ⟨_, rfl⟩, by simp, rfl, rfl, rfl,
        fun ts => rfl, ⟨_, _, rfl⟩⟩
  · obtain ⟨rfl, rfl, rfl⟩ := by simpa [distance, reset] using hd
    refine ⟨⟨_, rfl⟩, by simp, fun _ => rfl, rfl, rfl, rfl,
      fun ts => rfl, ⟨_, _, rfl⟩⟩

/-- Witness for claim C7: draining a `Timedout` state leaves a sensor that
rejects an immediate `capture` with `WrongMode`. -/
theorem claim7_drain_once_witness :
    capture { mode := Mode.Idle, hz := 500, t1 := 0, t2 := 0 } 7 =
      (Except.error SensorError.WrongMode,
        { mode := Mode.Idle, hz := 500, t1 := 0, t2 := 0 }) :=
  (claim7_drain_once { mode := Mode.Timedout, hz := 500, t1 := 3, t2 := 9 }
    { mode := Mode.Idle, hz := 500, t1 := 0, t2 := 0 }
    (PollResult.ready none) [] (Or.inr rfl) rfl).2.2.2.2.2.2.1 7

/-- Claim C8: a `distance` poll in `Triggered` or `Measurement` returns
not-ready (`WouldBlock`), leaves every field of the sensor unchanged and
emits no effect on the pin or delay provider; consequently any number `n`
of repeated polls returns `n` not-ready results, ends in the same state
and emits no effects. -/
theorem claim8_idempotent_poll (s : HcSr04) (n : Nat)
    (hm : s.mode = Mode.Triggered ∨ s.mode = Mode.Measurement) :
    distance s = some (PollResult.wouldBlock, s, []) ∧
    pollRepeat s n = some (List.replicate n PollResult.wouldBlock, s, []) := by
  have h1 : distance s = some (PollResult.wouldBlock, s, []) := by
    obtain ⟨mo, hz, t1, t2⟩ := s
    rcases hm with h | h <;> (have h2 : mo = _ := h; subst h2) <;> rfl
  refine ⟨h1, ?_⟩
  induction n with
  | zero => rfl
  | succ n ih => simp [pollRepeat, h1, ih, List.replicate_succ]

/-- Witness for claim C8: three repeated polls in `Triggered`. -/
theorem claim8_idempotent_poll_witness :
    pollRepeat { mode := Mode.Triggered, hz := 1000, t1 := 3, t2 := 4 } 3 =
      some (List.replicate 3 PollResult.wouldBlock,
        { mode := Mode.Triggered, hz := 1000, t1 := 3, t2 := 4 }, []) :=
  (claim8_idempotent_poll { mode := Mode.Triggered, hz := 1000, t1 := 3, t2 := 4 } 3
    (Or.inl rfl)).2

/-- Claim C9: the computed distance depends on the edge timestamps only
through their wraparound-safe modular difference: for `u32` timestamps
with `t2 < t1` numerically (the counter wrapped during the pulse), the
`distance` poll from `Completed` gives exactly the same outcome as for a
non-wrapped pair with the same modular difference
`wrapping_sub t2 t1 = (t2 - t1) mod 2^32`. -/
theorem claim9_wraparound_safe (t1 t2 t1' t2' hz : Nat)
    (_h1 : t1 < U32) (_h2 : t2 < U32) (_h3 : t1' < U32) (_h4 : t2' < U32)
    (_hlt : t2 < t1)
    (heq : wrapping_sub t2 t1 = wrapping_sub t2' t1') :
    distance { mode := Mode.Completed, hz := hz, t1 := t1, t2 := t2 } =
      distance { mode := Mode.Completed, hz := hz, t1 := t1', t2 := t2' } := by
  simp only [distance, reset]
  rw [heq]

/-- Witness for claim C9: the wrapped pair `(2^32 - 30, 30)` and the
non-wrapped pair `(1000, 1060)` share the modular difference 60 and give
identical poll outcomes. -/
theorem claim9_wraparound_safe_witness :
    distance { mode := Mode.Completed, hz := 1000000, t1 := 4294967266, t2 := 30 } =
      distance { mode := Mode.Completed, hz := 1000000, t1 := 1000, t2 := 1060 } :=
  claim9_wraparound_safe 4294967266 30 1000 1060 1000000
    (by decide) (by decide) (by decide) (by decide) (by decide) (by decide)

/-- Claim C10: `Distance.mm` returns the stored millimeter magnitude
exactly and `Distance.cm` is `mm / 10` under truncating integer division;
in particular 24 mm is 2 cm, 29 mm is 2 cm and 30 mm is 3 cm. -/
theorem claim10_unit_conversion (d : Distance) :
    Distance.mm d = d.val ∧
    Distance.cm d = Distance.mm d / 10 ∧
    Distance.cm ⟨24⟩ = 2 ∧ Distance.cm ⟨29⟩ = 2 ∧ Distance.cm ⟨30⟩ = 3 :=
  ⟨rfl, rfl, rfl, rfl, rfl⟩

end HcSr04Spec
